import Mathlib

/-!
Shallow embedding of the vidhub-control device connection core
(src/vidhubcontrol/backends/base.py and src/vidhubcontrol/backends/telnet.py).

Python's pydispatch property notifications are modelled explicitly: every
state-mutating operation returns the new state together with the ordered list
of observer-visible events it produced (property-change notifications and
outbound device commands).  List indexing/assignment out of range, which would
raise in Python, is modelled with `List.set` / `List.getD` (a no-op / default);
the theorems below supply in-range hypotheses wherever the source relies on
valid indices.
-/

namespace VidhubControl

/-- Character-list prefix test (the string functions below work on `List Char`
so that they evaluate by kernel reduction). -/
def chars_startswith : List Char → List Char → Bool
  | _, [] => true
  | [], _ :: _ => false
  | c :: cs, p :: ps => c = p && chars_startswith cs ps

/-- Python `s.startswith(pre)`. -/
def pyStartswith (s pre : String) : Bool :=
  chars_startswith s.data pre.data

/-- Character-list substring containment. -/
def chars_contains : List Char → List Char → Bool
  | [], pat => pat.isEmpty
  | c :: rest, pat => chars_startswith (c :: rest) pat || chars_contains rest pat

/-- Python `pat in s` (substring containment). -/
def strContains (s pat : String) : Bool :=
  chars_contains s.data pat.data

/-- Split a character list on a single separator character; always returns at
least one (possibly empty) part, like Python `str.split(sep)`. -/
def splitOnChar (sep : Char) : List Char → List (List Char)
  | [] => [[]]
  | c :: rest =>
    let r := splitOnChar sep rest
    if c = sep then [] :: r
    else match r with
    | [] => [[c]]
    | h :: t => (c :: h) :: t

/-- Python `s.split(sep)` for a one-character separator (all separators in the
source — `':'`, `'-'`, `' '`, `'\n'` — are one character). -/
def pySplit (s : String) (sep : Char) : List String :=
  (splitOnChar sep s.data).map String.mk

/-- Python `str.splitlines()` for newline-delimited text: split on newline,
with no empty trailing element when the string ends in a newline (and no
element at all for the empty string). -/
def pySplitlines (s : String) : List String :=
  let parts := pySplit s '\n'
  if parts.getLast? = some "" then parts.dropLast else parts

/-- Python `str.strip(' ')`: remove space characters from both ends. -/
def stripSpaces (s : String) : String :=
  String.mk (((s.data.dropWhile (fun c => c = ' ')).reverse.dropWhile (fun c => c = ' ')).reverse)

/-- Python `str.rstrip(':')`: remove all trailing colon characters. -/
def rstripColon (s : String) : String :=
  String.mk ((s.data.reverse.dropWhile (fun c => c = ':')).reverse)

/-- The helper `split_value` from `parse_rx_bfr`: `line.split(':')[1].strip(' ')`. -/
def split_value (line : String) : String :=
  stripSpaces ((pySplit line ':').getD 1 "")

/-- Decimal digit test on a character (via its code point). -/
def isDigitChar (c : Char) : Bool :=
  48 ≤ c.toNat && c.toNat ≤ 57

/-- Python `str.isdigit()`: non-empty and all characters are digits. -/
def pyIsdigit (s : String) : Bool :=
  !s.data.isEmpty && s.data.all isDigitChar

/-- Accumulate the decimal value of a digit character list. -/
def digitsToNat : List Char → Nat → Nat
  | [], acc => acc
  | c :: r, acc => digitsToNat r (acc * 10 + (c.toNat - 48))

/-- Python `int(s)` for a non-negative decimal string, `none` when malformed. -/
def pyToNatOpt (s : String) : Option Nat :=
  if !s.data.isEmpty && s.data.all isDigitChar then some (digitsToNat s.data 0) else none

/-- Python `int(s)` for a decimal string with an optional leading minus. -/
def pyToIntOpt (s : String) : Option Int :=
  match s.data with
  | '-' :: rest =>
    if !rest.isEmpty && rest.all isDigitChar then some (-(digitsToNat rest 0 : Int)) else none
  | l => if !l.isEmpty && l.all isDigitChar then some ((digitsToNat l 0 : Int)) else none

/-- Python `str.upper()` (ASCII). -/
def pyUpper (s : String) : String :=
  String.mk (s.data.map Char.toUpper)

/-- A stored preset (`Preset` in base.py).  `crosspoints` models the
`DictProperty` as an insertion-ordered association list from output index to
input index. -/
structure Preset where
  name : String
  index : Nat
  crosspoints : List (Nat × Int)
  active : Bool
deriving DecidableEq, Repr

/-- Backend state (`BackendBase` in base.py, with the telnet-protocol fields of
`TelnetBackendBase` / `TelnetBackend`). -/
structure Backend where
  connected : Bool := false
  prelude_parsed : Bool := false
  num_outputs : Nat := 0
  num_inputs : Nat := 0
  crosspoints : List Int := []
  output_labels : List String := []
  input_labels : List String := []
  crosspoint_control : List Int := []
  output_label_control : List String := []
  input_label_control : List String := []
  presets : List Preset := []
  device_id : Option String := none
  device_model : Option String := none
  device_version : Option String := none
  current_section : Option String := none
  ack_or_nak : Option String := none
  rx_bfr : String := ""
deriving DecidableEq, Repr

/-- A fresh backend, with the property defaults declared in `BackendBase`. -/
def initBackend : Backend := {}

/-- An observer-visible event.  `note prop keys xptLen outLblLen inLblLen` is a
property-change notification for `prop` (with `keys` the changed-index set:
`some` for a granular mutation, `none` for a bulk replacement), recording the
lengths of `crosspoints`, `output_labels` and `input_labels` at the moment the
notification is delivered.  `tx cmd` is an outbound device command buffer. -/
inductive Evt where
  | note (prop : String) (keys : Option (List Nat)) (xptLen outLblLen inLblLen : Nat)
  | tx (cmd : String)
deriving DecidableEq, Repr

/-- Extract the outbound command buffers from an event trace. -/
def txOf (evs : List Evt) : List String :=
  evs.filterMap (fun e => match e with | Evt.tx c => some c | _ => none)

/-- One `"idx value"` item line of an outbound command
(`'{} {}'.format(out_idx, in_idx)` in telnet.py). -/
def pairLine (o : Nat) (i : Int) : String := s!"{o} {i}"

/-- One `"idx label"` item line of an outbound label command. -/
def labelLine (i : Nat) (l : String) : String := s!"{i} {l}"

/-- The transmit buffer built by `TelnetBackend.set_crosspoints`. -/
def set_crosspoints_tx (args : List (Nat × Int)) : String :=
  String.intercalate "\n" ("VIDEO OUTPUT ROUTING:" :: args.map (fun a => pairLine a.1 a.2)) ++ "\n\n"

/-- The transmit buffer built by `TelnetBackend.set_output_labels`. -/
def set_output_labels_tx (args : List (Nat × String)) : String :=
  String.intercalate "\n" ("OUTPUT LABELS:" :: args.map (fun a => labelLine a.1 a.2)) ++ "\n\n"

/-- The transmit buffer built by `TelnetBackend.set_input_labels`. -/
def set_input_labels_tx (args : List (Nat × String)) : String :=
  String.intercalate "\n" ("INPUT LABELS:" :: args.map (fun a => labelLine a.1 a.2)) ++ "\n\n"

/-- The result computation shared by the three `set_*` commands:
`if r is None or r.startswith('NAK'): return False` / `return True`. -/
def cmd_result : Option String → Bool
  | none => false
  | some r => if pyStartswith r "NAK" then false else true

/-- `TelnetBackend.set_crosspoints` as seen by its caller: the transmit buffer
it sends and the boolean it returns given the rendezvous outcome `resp`. -/
def set_crosspoints_call (args : List (Nat × Int)) (resp : Option String) : String × Bool :=
  (set_crosspoints_tx args, cmd_result resp)

/-- `TelnetBackend.set_output_labels` as seen by its caller. -/
def set_output_labels_call (args : List (Nat × String)) (resp : Option String) : String × Bool :=
  (set_output_labels_tx args, cmd_result resp)

/-- `TelnetBackend.set_input_labels` as seen by its caller. -/
def set_input_labels_call (args : List (Nat × String)) (resp : Option String) : String × Bool :=
  (set_input_labels_tx args, cmd_result resp)

/-- `TelnetBackend.set_crosspoint`: delegates to the batched form. -/
def set_crosspoint_call (o : Nat) (i : Int) (resp : Option String) : String × Bool :=
  set_crosspoints_call [(o, i)] resp

/-- `TelnetBackend.set_output_label`: delegates to the batched form. -/
def set_output_label_call (o : Nat) (l : String) (resp : Option String) : String × Bool :=
  set_output_labels_call [(o, l)] resp

/-- `TelnetBackend.set_input_label`: delegates to the batched form. -/
def set_input_label_call (i : Nat) (l : String) (resp : Option String) : String × Bool :=
  set_input_labels_call [(i, l)] resp

/-- `TelnetBackendBase.wait_for_response` in normal mode: if the read loop is
stopped the wait loop exits returning nothing; otherwise the captured
`ack_or_nak` line (if any) is returned and the capture slot cleared. -/
def wait_for_response (read_enabled : Bool) (ack_or_nak : Option String) : Option String :=
  if read_enabled then ack_or_nak else none

/-- `Preset.check_active`: active iff the stored dict is non-empty and every
stored (output, input) entry matches the backend's live crosspoint. -/
def check_active (xpts : List Int) (p : Preset) : Preset :=
  if p.crosspoints.isEmpty then { p with active := false }
  else if p.crosspoints.all (fun e => xpts.getD e.1 0 == e.2) then { p with active := true }
  else { p with active := false }

/-- A `note` event recording the current container lengths of `b`. -/
def mkNote (b : Backend) (prop : String) (keys : Option (List Nat)) : Evt :=
  Evt.note prop keys b.crosspoints.length b.output_labels.length b.input_labels.length

/-- `on_prop_control` for `crosspoint_control`: ignores the change unless the
backend is connected with the prelude parsed and the notification carries a
changed-index set; otherwise issues one `set_crosspoints` command for the
changed keys (reading `value[key]` from the notified container value). -/
def on_prop_control_crosspoint (b : Backend) (value : List Int) (keys : Option (List Nat)) : List String :=
  if ¬ b.connected then [] else if ¬ b.prelude_parsed then []
  else match keys with
  | none => []
  | some ks => [set_crosspoints_tx (ks.map (fun k => (k, value.getD k 0)))]

/-- `on_prop_control` for `output_label_control`. -/
def on_prop_control_output_label (b : Backend) (value : List String) (keys : Option (List Nat)) : List String :=
  if ¬ b.connected then [] else if ¬ b.prelude_parsed then []
  else match keys with
  | none => []
  | some ks => [set_output_labels_tx (ks.map (fun k => (k, value.getD k "")))]

/-- `on_prop_control` for `input_label_control`. -/
def on_prop_control_input_label (b : Backend) (value : List String) (keys : Option (List Nat)) : List String :=
  if ¬ b.connected then [] else if ¬ b.prelude_parsed then []
  else match keys with
  | none => []
  | some ks => [set_input_labels_tx (ks.map (fun k => (k, value.getD k "")))]

/-- Bulk replacement of `crosspoints`.  The notification triggers
`on_prop_feedback`, which bulk-mirrors the value into `crosspoint_control`
(whose own notification carries no keys, so `on_prop_control` issues nothing),
and then each preset's `on_backend_crosspoints` handler, which recomputes
`check_active` when the prelude is parsed. -/
def assign_crosspoints (b : Backend) (v : List Int) : Backend × List Evt :=
  let b1 : Backend := { b with crosspoints := v }
  let b2 : Backend := { b1 with crosspoint_control := v }
  let b3 : Backend := { b2 with presets :=
    if b2.prelude_parsed then b2.presets.map (check_active v) else b2.presets }
  (b3, [mkNote b1 "crosspoints" none, mkNote b2 "crosspoint_control" none])

/-- Granular mutation `crosspoints[i] = v` (from the routing parser).  Fires
the same observers as a bulk change, but the `crosspoints` notification
carries the changed-index set `[i]`. -/
def setitem_crosspoints (b : Backend) (i : Nat) (v : Int) : Backend × List Evt :=
  let xs := b.crosspoints.set i v
  let b1 : Backend := { b with crosspoints := xs }
  let b2 : Backend := { b1 with crosspoint_control := xs }
  let b3 : Backend := { b2 with presets :=
    if b2.prelude_parsed then b2.presets.map (check_active xs) else b2.presets }
  (b3, [mkNote b1 "crosspoints" (some [i]), mkNote b2 "crosspoint_control" none])

/-- Bulk replacement of `output_labels`; `on_prop_feedback` bulk-mirrors the
value into `output_label_control`. -/
def assign_output_labels (b : Backend) (v : List String) : Backend × List Evt :=
  let b1 : Backend := { b with output_labels := v }
  let b2 : Backend := { b1 with output_label_control := v }
  (b2, [mkNote b1 "output_labels" none, mkNote b2 "output_label_control" none])

/-- Granular mutation `output_labels[i] = lbl` (from the label parser). -/
def setitem_output_labels (b : Backend) (i : Nat) (lbl : String) : Backend × List Evt :=
  let ls := b.output_labels.set i lbl
  let b1 : Backend := { b with output_labels := ls }
  let b2 : Backend := { b1 with output_label_control := ls }
  (b2, [mkNote b1 "output_labels" (some [i]), mkNote b2 "output_label_control" none])

/-- Bulk replacement of `input_labels`. -/
def assign_input_labels (b : Backend) (v : List String) : Backend × List Evt :=
  let b1 : Backend := { b with input_labels := v }
  let b2 : Backend := { b1 with input_label_control := v }
  (b2, [mkNote b1 "input_labels" none, mkNote b2 "input_label_control" none])

/-- Granular mutation `input_labels[i] = lbl`. -/
def setitem_input_labels (b : Backend) (i : Nat) (lbl : String) : Backend × List Evt :=
  let ls := b.input_labels.set i lbl
  let b1 : Backend := { b with input_labels := ls }
  let b2 : Backend := { b1 with input_label_control := ls }
  (b2, [mkNote b1 "input_labels" (some [i]), mkNote b2 "input_label_control" none])

/-- External granular write `crosspoint_control[i] = v`: the notification
carries keys `[i]` and reaches `on_prop_control`. -/
def setitem_crosspoint_control (b : Backend) (i : Nat) (v : Int) : Backend × List Evt :=
  let ctl := b.crosspoint_control.set i v
  let b1 : Backend := { b with crosspoint_control := ctl }
  (b1, mkNote b1 "crosspoint_control" (some [i]) ::
       (on_prop_control_crosspoint b1 ctl (some [i])).map Evt.tx)

/-- External bulk replacement of `crosspoint_control`: the notification
carries no keys, so `on_prop_control` issues nothing. -/
def assign_crosspoint_control (b : Backend) (v : List Int) : Backend × List Evt :=
  let b1 : Backend := { b with crosspoint_control := v }
  (b1, mkNote b1 "crosspoint_control" none ::
       (on_prop_control_crosspoint b1 v none).map Evt.tx)

/-- External granular write `output_label_control[i] = lbl`. -/
def setitem_output_label_control (b : Backend) (i : Nat) (lbl : String) : Backend × List Evt :=
  let ctl := b.output_label_control.set i lbl
  let b1 : Backend := { b with output_label_control := ctl }
  (b1, mkNote b1 "output_label_control" (some [i]) ::
       (on_prop_control_output_label b1 ctl (some [i])).map Evt.tx)

/-- External bulk replacement of `output_label_control`. -/
def assign_output_label_control (b : Backend) (v : List String) : Backend × List Evt :=
  let b1 : Backend := { b with output_label_control := v }
  (b1, mkNote b1 "output_label_control" none ::
       (on_prop_control_output_label b1 v none).map Evt.tx)

/-- External granular write `input_label_control[i] = lbl`. -/
def setitem_input_label_control (b : Backend) (i : Nat) (lbl : String) : Backend × List Evt :=
  let ctl := b.input_label_control.set i lbl
  let b1 : Backend := { b with input_label_control := ctl }
  (b1, mkNote b1 "input_label_control" (some [i]) ::
       (on_prop_control_input_label b1 ctl (some [i])).map Evt.tx)

/-- External bulk replacement of `input_label_control`. -/
def assign_input_label_control (b : Backend) (v : List String) : Backend × List Evt :=
  let b1 : Backend := { b with input_label_control := v }
  (b1, mkNote b1 "input_label_control" none ::
       (on_prop_control_input_label b1 v none).map Evt.tx)

/-- `BackendBase.on_num_outputs`, invoked with `num_outputs` already updated:
early return when the new value equals `len(output_labels)`; otherwise bulk
re-assign `crosspoints` (zero-filled) when its length differs, then bulk
re-assign `output_labels` (empty-string-filled). -/
def on_num_outputs (b : Backend) (value : Nat) : Backend × List Evt :=
  if value = b.output_labels.length then (b, [])
  else
    let r1 := if value ≠ b.crosspoints.length
      then assign_crosspoints b (List.replicate value 0) else (b, [])
    let r2 := assign_output_labels r1.1 (List.replicate value "")
    (r2.1, r1.2 ++ r2.2)

/-- `BackendBase.on_num_inputs`: early return when the new value equals
`len(input_labels)`; otherwise bulk re-assign `crosspoints` (zero-filled) when
its length differs, then bulk re-assign `input_labels`. -/
def on_num_inputs (b : Backend) (value : Nat) : Backend × List Evt :=
  if value = b.input_labels.length then (b, [])
  else
    let r1 := if value ≠ b.crosspoints.length
      then assign_crosspoints b (List.replicate value 0) else (b, [])
    let r2 := assign_input_labels r1.1 (List.replicate value "")
    (r2.1, r1.2 ++ r2.2)

/-- Property assignment `num_outputs = value`: a pydispatch `Property` does not
dispatch when the value is unchanged; otherwise the bound `on_num_outputs`
handler runs. -/
def set_num_outputs (b : Backend) (value : Nat) : Backend × List Evt :=
  if value = b.num_outputs then (b, [])
  else on_num_outputs { b with num_outputs := value } value

/-- Property assignment `num_inputs = value`. -/
def set_num_inputs (b : Backend) (value : Nat) : Backend × List Evt :=
  if value = b.num_inputs then (b, [])
  else on_num_inputs { b with num_inputs := value } value

/-- Property assignment `prelude_parsed = True`: when this is a change, each
preset's `on_backend_ready` handler fires and recomputes `check_active`. -/
def set_prelude_parsed_true (b : Backend) : Backend :=
  if b.prelude_parsed then b
  else { b with prelude_parsed := true,
                presets := b.presets.map (check_active b.crosspoints) }

/-- Assignment `d[k] = v` on a `DictProperty` modelled as an insertion-ordered
association list: overwrite in place when the key exists, else append. -/
def dictSet (d : List (Nat × Int)) (k : Nat) (v : Int) : List (Nat × Int) :=
  if d.any (fun kv => kv.1 = k) then d.map (fun kv => if kv.1 = k then (k, v) else kv)
  else d ++ [(k, v)]

/-- `Preset.store`: default `outputs_to_store` is `range(num_outputs)`; clear
the stored dict when `clear_current`; record the backend's live crosspoint for
each listed output; unconditionally set `active = True`. -/
def preset_store (b : Backend) (p : Preset) (outs : Option (List Nat)) (clear : Bool) : Preset :=
  let os := outs.getD (List.range b.num_outputs)
  let d0 := if clear then [] else p.crosspoints
  let d := os.foldl (fun d o => dictSet d o (b.crosspoints.getD o 0)) d0
  { p with crosspoints := d, active := true }

/-- `Preset.recall`: no command when the preset holds no entries; otherwise one
batched `set_crosspoints` command built from the stored items. -/
def preset_recall_tx (p : Preset) : Option String :=
  if p.crosspoints.length = 0 then none
  else some (set_crosspoints_tx p.crosspoints)

/-- A freshly constructed `Preset` (no stored crosspoints; `active` starts
false, and `check_active` on an empty dict keeps it false). -/
def mkPreset (idx : Nat) : Preset :=
  { name := s!"Preset {idx + 1}", index := idx, crosspoints := [], active := false }

/-- `BackendBase.add_preset`: append a new preset at the next index. -/
def add_preset (b : Backend) : Backend :=
  { b with presets := b.presets ++ [mkPreset b.presets.length] }

/-- `BackendBase.store_preset` with an explicit `index` argument.  The source's
`while True` loop — `presets[index]` under `IndexError`, appending via
`add_preset` until the lookup succeeds — is realized in closed form; a negative
`index` follows Python semantics (indexing from the end), so the loop exits
once `len(presets)` reaches `|index|` (for `index < 0`) or `index + 1`
(for `index ≥ 0`). -/
def store_preset (b : Backend) (index : Int) (name : Option String)
    (outs : Option (List Nat)) (clear : Bool) : Backend :=
  let need : Nat := if 0 ≤ index then index.toNat + 1 else index.natAbs
  let ps := if need ≤ b.presets.length then b.presets
            else b.presets ++ (List.range (need - b.presets.length)).map
              (fun k => mkPreset (b.presets.length + k))
  let pos : Nat := if 0 ≤ index then index.toNat else ps.length - index.natAbs
  match ps.get? pos with
  | none => b
  | some p =>
      let p := match name with | none => p | some n => { p with name := n }
      { b with presets := ps.set pos (preset_store b p outs clear) }

/-- The section headers recognized by `TelnetBackend` (Vidhub variant). -/
def VIDHUB_SECTION_NAMES : List String :=
  ["PROTOCOL PREAMBLE:", "VIDEOHUB DEVICE:", "INPUT LABELS:", "OUTPUT LABELS:",
   "VIDEO OUTPUT LOCKS:", "VIDEO OUTPUT ROUTING:", "CONFIGURATION:"]

/-- Loop state of `TelnetBackend.parse_rx_bfr`: the backend, the
`section_parsed` flag, and whether the loop has hit `break`. -/
structure VAcc where
  b : Backend
  section_parsed : Bool
  stopped : Bool
deriving DecidableEq, Repr

/-- One iteration of the line loop in `TelnetBackend.parse_rx_bfr`.  Malformed
numeric fields (which would raise `ValueError` in Python) are skipped; routing
and label indices are taken non-negative as the device sends them. -/
def vidhub_line (acc : VAcc) (line : String) : VAcc :=
  if acc.stopped then acc
  else if strContains line "END PRELUDE" then
    let b1 := set_prelude_parsed_true { acc.b with current_section := none, rx_bfr := "" }
    { acc with b := b1, stopped := true }
  else if line.data.isEmpty then acc
  else if pyStartswith line "ACK" || pyStartswith line "NAK" then
    { acc with b := { acc.b with ack_or_nak := some line } }
  else if line ∈ VIDHUB_SECTION_NAMES then
    { acc with b := { acc.b with current_section := some (rstripColon line) } }
  else match acc.b.current_section with
  | none => acc
  | some sec =>
    if sec = "PROTOCOL PREAMBLE" then
      if pyStartswith line "Version:" then
        { acc with b := { acc.b with device_version := some (split_value line) } }
      else acc
    else if sec = "VIDEOHUB DEVICE" then
      if pyStartswith line "Model name:" then
        { acc with b := { acc.b with device_model := some (split_value line) } }
      else if pyStartswith line "Unique ID:" then
        { acc with b := { acc.b with device_id := some (pyUpper (split_value line)) } }
      else if pyStartswith line "Video outputs:" then
        { acc with b := (set_num_outputs acc.b ((pyToNatOpt (split_value line)).getD 0)).1 }
      else if pyStartswith line "Video inputs:" then
        { acc with b := (set_num_inputs acc.b ((pyToNatOpt (split_value line)).getD 0)).1 }
      else acc
    else if sec = "OUTPUT LABELS" then
      let ws := pySplit line ' '
      { acc with
        b := (setitem_output_labels acc.b ((pyToNatOpt (ws.getD 0 "")).getD 0)
          (String.intercalate " " (ws.drop 1))).1,
        section_parsed := true }
    else if sec = "INPUT LABELS" then
      let ws := pySplit line ' '
      { acc with
        b := (setitem_input_labels acc.b ((pyToNatOpt (ws.getD 0 "")).getD 0)
          (String.intercalate " " (ws.drop 1))).1,
        section_parsed := true }
    else if sec = "VIDEO OUTPUT ROUTING" then
      match (pySplit line ' ').map pyToIntOpt with
      | [some o, some i] => { acc with b := (setitem_crosspoints acc.b o.toNat i).1 }
      | _ => acc
    else { acc with section_parsed := true }

/-- `TelnetBackend.parse_rx_bfr` over an already split line batch, including
the post-loop step (signal `response_ready`, then clear the section cursor
when past the prelude and a data section was parsed). -/
def vidhub_parse_lines (b : Backend) (ls : List String) : Backend :=
  let acc := ls.foldl vidhub_line { b := b, section_parsed := false, stopped := false }
  let b := acc.b
  if ¬ b.prelude_parsed then b
  else match b.current_section with
  | some _ => if acc.section_parsed then { b with current_section := none } else b
  | none => b

/-- `TelnetBackend.parse_rx_bfr` on a received byte batch. -/
def vidhub_parse (b : Backend) (bfr : String) : Backend :=
  vidhub_parse_lines b (pySplitlines bfr)

/-- A SmartScope monitor property value: coerced to an integer when the wire
value is all-digit, otherwise kept as a string. -/
inductive PropVal where
  | num (n : Nat)
  | str (s : String)
deriving DecidableEq, Repr

/-- Modelled from the spec: the SmartScope `Monitor` entity (its class lives in
`backends/__init__.py`, which is not part of the source tree) — a name derived
from the lettered section plus the eight scalar properties of §3. -/
structure Monitor where
  name : String
  brightness : Option PropVal := none
  contrast : Option PropVal := none
  saturation : Option PropVal := none
  identify : Option PropVal := none
  border : Option PropVal := none
  widescreen_sd : Option PropVal := none
  scope_mode : Option PropVal := none
  audio_channel : Option PropVal := none
deriving DecidableEq, Repr

/-- Modelled from the spec: `Monitor.set_property_from_backend` (defined in the
missing `backends/__init__.py`) stores the parsed value into the named monitor
property. -/
def set_property_from_backend (m : Monitor) (prop : String) (v : PropVal) : Monitor :=
  if prop = "brightness" then { m with brightness := some v }
  else if prop = "contrast" then { m with contrast := some v }
  else if prop = "saturation" then { m with saturation := some v }
  else if prop = "identify" then { m with identify := some v }
  else if prop = "border" then { m with border := some v }
  else if prop = "widescreen_sd" then { m with widescreen_sd := some v }
  else if prop = "scope_mode" then { m with scope_mode := some v }
  else if prop = "audio_channel" then { m with audio_channel := some v }
  else m

/-- SmartScope backend state (`SmartScopeTelnetBackend` in telnet.py; the
`device_name` / `num_monitors` / `inverted` / `monitors` attributes of the
missing `SmartScopeBackendBase` are modelled from the spec's §3 data model). -/
structure SmartScope where
  device_version : Option String := none
  device_model : Option String := none
  device_id : Option String := none
  device_name : Option String := none
  num_monitors : Nat := 0
  inverted : Bool := false
  monitors : List Monitor := []
  section_names : List String := ["PROTOCOL PREAMBLE:", "SMARTVIEW DEVICE:", "NETWORK:"]
  current_section : Option String := none
  ack_or_nak : Option String := none
  prelude_parsed : Bool := false
  rx_bfr : String := ""
deriving DecidableEq, Repr

/-- A fresh SmartScope backend. -/
def initSmartScope : SmartScope := {}

/-- The upper-case alphabet (`string.ascii_uppercase`). -/
def uppercaseLetters : List Char := "ABCDEFGHIJKLMNOPQRSTUVWXYZ".data

/-- `SmartScopeTelnetBackend.parse_monitor_line`: look the monitor up by
section name (creating it on first reference — `add_monitor` is modelled from
the spec), map the recognized field prefix to a property, coerce all-digit
values to integers, and ignore unknown prefixes (the freshly created monitor
persists either way). -/
def parse_monitor_line (ms : List Monitor) (monitor_name line value : String) : List Monitor :=
  let ms := if ms.any (fun m => m.name = monitor_name) then ms
            else ms ++ [{ name := monitor_name }]
  let prop : Option String :=
    if pyStartswith line "Brightness:" then some "brightness"
    else if pyStartswith line "Contrast:" then some "contrast"
    else if pyStartswith line "Saturation:" then some "saturation"
    else if pyStartswith line "Identify:" then some "identify"
    else if pyStartswith line "Border:" then some "border"
    else if pyStartswith line "WidescreenSD:" then some "widescreen_sd"
    else if pyStartswith line "ScopeMode:" then some "scope_mode"
    else if pyStartswith line "AudioChannel:" then some "audio_channel"
    else none
  match prop with
  | none => ms
  | some pr =>
    let pv := if pyIsdigit value then PropVal.num ((pyToNatOpt value).getD 0) else PropVal.str value
    ms.map (fun m => if m.name = monitor_name then set_property_from_backend m pr pv else m)

/-- Loop state of `SmartScopeTelnetBackend.parse_rx_bfr`. -/
structure SAcc where
  s : SmartScope
  section_parsed : Bool
  stopped : Bool
deriving DecidableEq, Repr

/-- One iteration of the line loop in `SmartScopeTelnetBackend.parse_rx_bfr`.
Fallible: on a blank line the source reads
`self.current_section.startswith('MONITOR')`, which raises `AttributeError`
when the section cursor is unset; `split_value(...).split('-')[1]` on a
hostname without a hyphen raises `IndexError`. -/
def smartscope_line (acc : SAcc) (line : String) : Except String SAcc :=
  if acc.stopped then .ok acc
  else if line.data.isEmpty then
    match acc.s.current_section with
    | none => .error "AttributeError"
    | some sec =>
      if pyStartswith sec "MONITOR" && acc.s.monitors.length = acc.s.num_monitors then
        .ok { acc with
          s := { acc.s with current_section := none, rx_bfr := "", prelude_parsed := true },
          stopped := true }
      else .ok acc
  else if pyStartswith line "ACK" || pyStartswith line "NAK" then
    .ok { acc with s := { acc.s with ack_or_nak := some line } }
  else if line ∈ acc.s.section_names then
    .ok { acc with s := { acc.s with current_section := some (rstripColon line) } }
  else match acc.s.current_section with
  | none => .ok acc
  | some sec =>
    if sec = "PROTOCOL PREAMBLE" then
      if pyStartswith line "Version:" then
        .ok { acc with s := { acc.s with device_version := some (split_value line) } }
      else .ok acc
    else if sec = "SMARTVIEW DEVICE" then
      if pyStartswith line "Model:" then
        .ok { acc with s := { acc.s with device_model := some (split_value line) } }
      else if pyStartswith line "Hostname:" then
        let parts := pySplit (split_value line) '-'
        if parts.length < 2 then .error "IndexError"
        else .ok { acc with s := { acc.s with device_id := some (pyUpper (parts.getD 1 "")) } }
      else if pyStartswith line "Name:" then
        if acc.s.device_name = none ∨ acc.s.device_name = acc.s.device_id then
          .ok { acc with s := { acc.s with device_name := some (split_value line) } }
        else .ok acc
      else if pyStartswith line "Monitors:" then
        let n := (pyToNatOpt (split_value line)).getD 0
        let names := (uppercaseLetters.take n).foldl
          (fun sns c =>
            let nm := s!"MONITOR {c}:"
            if nm ∈ sns then sns else sns ++ [nm])
          acc.s.section_names
        .ok { acc with s := { acc.s with num_monitors := n, section_names := names } }
      else if pyStartswith line "Inverted:" then
        .ok { acc with s := { acc.s with inverted := split_value line = "true" } }
      else .ok acc
    else if sec = "NETWORK" then .ok acc
    else if pyStartswith sec "MONITOR " then
      .ok { acc with s := { acc.s with
        monitors := parse_monitor_line acc.s.monitors sec line (split_value line) } }
    else .ok { acc with section_parsed := true }

/-- Error-propagating step for folding `smartscope_line` over a batch. -/
def smartscope_step (acc : Except String SAcc) (line : String) : Except String SAcc :=
  match acc with
  | .error e => .error e
  | .ok a => smartscope_line a line

/-- `SmartScopeTelnetBackend.parse_rx_bfr` over an already split line batch. -/
def smartscope_parse_lines (s : SmartScope) (ls : List String) : Except String SmartScope :=
  match ls.foldl smartscope_step (.ok { s := s, section_parsed := false, stopped := false }) with
  | .error e => .error e
  | .ok acc =>
    let s := acc.s
    if ¬ s.prelude_parsed then .ok s
    else match s.current_section with
    | some _ => if acc.section_parsed then .ok { s with current_section := none } else .ok s
    | none => .ok s

/-- `SmartScopeTelnetBackend.parse_rx_bfr` on a received byte batch. -/
def smartscope_parse (s : SmartScope) (bfr : String) : Except String SmartScope :=
  smartscope_parse_lines s (pySplitlines bfr)

/-- The hostname-to-device_id computation of the SmartScope handshake parser:
`split_value(line).split('-')[1].upper()`. -/
def hostname_to_device_id (value : String) : String :=
  pyUpper ((pySplit value '-').getD 1 "")

/-- Applying a batch of (output, input) routing pairs to a crosspoint list —
the semantics the `VIDEO OUTPUT ROUTING` parser gives each `"out in"` line
(`crosspoints[out_idx] = in_idx`). -/
def applyPairs (xs : List Int) (ps : List (Nat × Int)) : List Int :=
  ps.foldl (fun l p => l.set p.1 p.2) xs

/-- The snapshot `Preset.store` records with full coverage: one entry per
output in `range(num_outputs)`, in order. -/
def storeSnapshot (b : Backend) : List (Nat × Int) :=
  (List.range b.num_outputs).map (fun o => (o, b.crosspoints.getD o 0))

/-! ## Helper lemmas -/

theorem getElem?_set_self_of_lt {α : Type} (l : List α) (i : Nat) (a : α)
    (h : i < l.length) : (l.set i a)[i]? = some a := by
  induction l generalizing i with
  | nil => simp at h
  | cons x xs ih =>
    cases i with
    | zero => simp
    | succ n => simpa using ih n (by simpa using h)

theorem getD_set_self {α : Type} (l : List α) (i : Nat) (a d : α) (h : i < l.length) :
    (l.set i a).getD i d = a := by
  simp [List.getD, getElem?_set_self_of_lt l i a h]

theorem foldl_smartscope_step_error (ls : List String) (e : String) :
    ls.foldl smartscope_step (.error e) = .error e := by
  induction ls with
  | nil => rfl
  | cons l t ih => simpa [smartscope_step] using ih

/-! ## C1: control-surface write semantics -/

/-- C1: on a connected backend with the prelude parsed, a granular write to
`crosspoint_control[i]` issues exactly one outbound "VIDEO OUTPUT ROUTING:"
command whose single item line carries index `i`, while a bulk replacement of
the whole container issues zero commands; the same holds for
`output_label_control` ("OUTPUT LABELS:") and `input_label_control`
("INPUT LABELS:"). -/
theorem C1_control_surface_commands (b : Backend) (i : Nat) (v : Int)
    (lb li : String) (w : List Int) (wo wi : List String)
    (hc : b.connected = true) (hp : b.prelude_parsed = true)
    (h1 : i < b.crosspoint_control.length)
    (h2 : i < b.output_label_control.length)
    (h3 : i < b.input_label_control.length) :
    txOf (setitem_crosspoint_control b i v).2 = [set_crosspoints_tx [(i, v)]]
    ∧ set_crosspoints_tx [(i, v)] =
        String.intercalate "\n" ["VIDEO OUTPUT ROUTING:", pairLine i v] ++ "\n\n"
    ∧ txOf (assign_crosspoint_control b w).2 = []
    ∧ txOf (setitem_output_label_control b i lb).2 = [set_output_labels_tx [(i, lb)]]
    ∧ set_output_labels_tx [(i, lb)] =
        String.intercalate "\n" ["OUTPUT LABELS:", labelLine i lb] ++ "\n\n"
    ∧ txOf (assign_output_label_control b wo).2 = []
    ∧ txOf (setitem_input_label_control b i li).2 = [set_input_labels_tx [(i, li)]]
    ∧ set_input_labels_tx [(i, li)] =
        String.intercalate "\n" ["INPUT LABELS:", labelLine i li] ++ "\n\n"
    ∧ txOf (assign_input_label_control b wi).2 = []:= by
  refine ⟨?_, rfl, ?_, ?_, rfl, ?_, ?_, rfl, ?_⟩ <;>
    simp [txOf, setitem_crosspoint_control, assign_crosspoint_control,
      setitem_output_label_control, assign_output_label_control,
      setitem_input_label_control, assign_input_label_control,
      on_prop_control_crosspoint, on_prop_control_output_label,
      on_prop_control_input_label, mkNote, hc, hp, List.filterMap,
      getElem?_set_self_of_lt _ _ _ h1, getElem?_set_self_of_lt _ _ _ h2,
      getElem?_set_self_of_lt _ _ _ h3]

/-- A concrete connected backend used by the witnesses below. -/
def demoBackend : Backend :=
  { initBackend with
      connected := true
      prelude_parsed := true
      crosspoint_control := [0, 0]
      output_label_control := ["", ""]
      input_label_control := ["", ""] }

/-- C1 witness at a concrete connected backend. -/
theorem C1_control_surface_commands_witness :
    txOf (setitem_crosspoint_control demoBackend 1 5).2 = [set_crosspoints_tx [(1, 5)]]
    ∧ txOf (assign_crosspoint_control demoBackend [1, 2]).2 = [] := by
  have h := C1_control_surface_commands demoBackend 1 5 "x" "y" [1, 2] [] []
    (by decide) (by decide) (by decide) (by decide) (by decide)
  exact ⟨h.1, h.2.2.1⟩

/-! ## Dict/store helper lemmas -/

theorem dictSet_append_fresh (d : List (Nat × Int)) (k : Nat) (v : Int)
    (h : ∀ kv ∈ d, kv.1 ≠ k) : dictSet d k v = d ++ [(k, v)] := by
  unfold dictSet
  rw [if_neg]
  intro hany
  simp only [List.any_eq_true, decide_eq_true_eq] at hany
  rcases hany with ⟨kv, hkv, hk⟩
  exact h kv hkv hk

theorem store_fold_range (v : List Int) (n : Nat) :
    (List.range n).foldl (fun d o => dictSet d o (v.getD o 0)) [] =
      (List.range n).map (fun o => (o, v.getD o 0)) := by
  induction n with
  | zero => rfl
  | succ m ih =>
    rw [List.range_succ, List.foldl_append, List.map_append, ih]
    simp only [List.foldl_cons, List.foldl_nil, List.map_cons, List.map_nil]
    rw [dictSet_append_fresh]
    intro kv hkv
    rw [List.mem_map] at hkv
    rcases hkv with ⟨o, ho, rfl⟩
    have : o < m := List.mem_range.1 ho
    omega

theorem preset_store_default_clear (b : Backend) (p : Preset) :
    preset_store b p none true =
      { p with crosspoints := storeSnapshot b, active := true } := by
  simp only [preset_store, storeSnapshot, Option.getD_none, if_true]
  rw [store_fold_range]

theorem check_active_iff (xpts : List Int) (p : Preset) :
    (check_active xpts p).active = true ↔
      (p.crosspoints ≠ [] ∧ ∀ e ∈ p.crosspoints, xpts.getD e.1 0 = e.2) := by
  unfold check_active
  by_cases he : p.crosspoints.isEmpty = true
  · have he2 : p.crosspoints = [] := List.isEmpty_iff.1 he
    rw [if_pos he]
    simp [he2]
  · have he2 : p.crosspoints ≠ [] := by
      intro h
      exact he (by simp [h])
    rw [if_neg he]
    by_cases hall : (p.crosspoints.all (fun e => xpts.getD e.1 0 == e.2)) = true
    · rw [if_pos hall]
      simp only [List.all_eq_true, beq_iff_eq] at hall
      exact ⟨fun _ => ⟨he2, hall⟩, fun _ => rfl⟩
    · rw [if_neg hall]
      simp only [List.all_eq_true, beq_iff_eq] at hall
      constructor
      · intro h
        simp at h
      · intro hr
        exact absurd hr.2 hall

/-! ## C2: preset active flag -/

/-- A concrete stored preset used by fixtures below. -/
def demoPreset : Preset :=
  { name := "P1", index := 0, crosspoints := [(0, 3)], active := false }

/-- A concrete ready backend owning one preset. -/
def demoBackend2 : Backend :=
  { initBackend with
      connected := true
      prelude_parsed := true
      num_outputs := 2
      crosspoints := [0, 0]
      presets := [demoPreset] }

/-- C2 counterexample: `store` with an empty `outputs_to_store` leaves the
preset with no stored entries yet sets `active` unconditionally true, so an
empty preset can have `active = true`, contradicting the claimed iff. -/
theorem C2_store_empty_counterexample :
    (preset_store demoBackend2 (mkPreset 0) (some []) true).crosspoints = []
    ∧ (preset_store demoBackend2 (mkPreset 0) (some []) true).active = true := by
  constructor <;> rfl

/-- C2 (amended): the active iff holds after every `check_active`
recomputation — i.e. after any backend crosspoints change while the prelude is
parsed, and on the prelude-parsed (readiness) transition; `store` itself sets
`active` unconditionally, so the iff can fail right after a store that stored
nothing. -/
theorem C2_active_invariant :
    (∀ (xpts : List Int) (p : Preset),
      ((check_active xpts p).active = true ↔
        (p.crosspoints ≠ [] ∧ ∀ e ∈ p.crosspoints, xpts.getD e.1 0 = e.2)))
    ∧ (∀ (b : Backend) (v : List Int), b.prelude_parsed = true →
      ∀ p ∈ (assign_crosspoints b v).1.presets,
        (p.active = true ↔ (p.crosspoints ≠ [] ∧ ∀ e ∈ p.crosspoints, v.getD e.1 0 = e.2)))
    ∧ (∀ b : Backend, b.prelude_parsed = false →
      ∀ p ∈ (set_prelude_parsed_true b).presets,
        (p.active = true ↔
          (p.crosspoints ≠ [] ∧ ∀ e ∈ p.crosspoints, b.crosspoints.getD e.1 0 = e.2))) := by
  refine ⟨check_active_iff, ?_, ?_⟩
  · intro b v hp p hmem
    simp only [assign_crosspoints, hp, if_true] at hmem
    rcases List.mem_map.1 hmem with ⟨q, _, rfl⟩
    have h := check_active_iff v q
    have hcp : (check_active v q).crosspoints = q.crosspoints := by
      unfold check_active
      split <;> try rfl
      split <;> rfl
    rw [hcp]
    exact h
  · intro b hp p hmem
    simp only [set_prelude_parsed_true, hp, Bool.false_eq_true, if_false] at hmem
    rcases List.mem_map.1 hmem with ⟨q, _, rfl⟩
    have h := check_active_iff b.crosspoints q
    have hcp : (check_active b.crosspoints q).crosspoints = q.crosspoints := by
      unfold check_active
      split <;> try rfl
      split <;> rfl
    rw [hcp]
    exact h

/-- C2 witness: the active iff at a concrete matching preset and a concrete
crosspoints change. -/
theorem C2_active_invariant_witness :
    (check_active [3] demoPreset).active = true
    ∧ ((assign_crosspoints demoBackend2 [3]).1.presets.getD 0 demoPreset).active = true := by
  refine ⟨(C2_active_invariant.1 [3] demoPreset).mpr (by decide), ?_⟩
  have h := C2_active_invariant.2.1 demoBackend2 [3] rfl
    ((assign_crosspoints demoBackend2 [3]).1.presets.getD 0 demoPreset) (by decide)
  exact h.mpr (by decide)

/-! ## C3: store_preset with a negative index -/

/-- C3 counterexample: `store_preset` with index `-1` on a backend with no
presets does not fail — it appends a preset (Python negative indexing) and
stores into it, mutating the preset collection. -/
theorem C3_negative_index_counterexample :
    initBackend.presets.length = 0
    ∧ (store_preset initBackend (-1) none none true).presets.length = 1 := by
  constructor <;> rfl

/-- C3 (amended): a negative index `-n` does not raise; Python negative
indexing applies: presets are appended until the collection has at least `n`
entries, then the preset `n` positions from the end is stored into (active set
and the snapshot recorded) — the collection is mutated, and no
InvalidIndex/InvalidPresetIndex error exists in this code. -/
theorem C3_negative_index_store (b : Backend) (n : Nat) (hn : 0 < n) :
    (store_preset b (-(n : Int)) none none true).presets.length = max b.presets.length n
    ∧ ∃ p, (store_preset b (-(n : Int)) none none true).presets[max b.presets.length n - n]? = some p
        ∧ p.active = true ∧ p.crosspoints = storeSnapshot b := by
  have h0 : ¬ (0 ≤ -(n : Int)) := by omega
  have habs : (-(n : Int)).natAbs = n := by
    simp [Int.natAbs_neg]
  by_cases hle : n ≤ b.presets.length
  · have hmax : max b.presets.length n = b.presets.length := Nat.max_eq_left hle
    have hpos : b.presets.length - n < b.presets.length := by omega
    have hget : b.presets.get? (b.presets.length - n) =
        some (b.presets.get ⟨b.presets.length - n, hpos⟩) := List.get?_eq_get hpos
    simp only [store_preset, h0, if_false, habs, if_pos hle, hget, hmax]
    refine ⟨by simp, ?_⟩
    refine ⟨preset_store b (b.presets.get ⟨b.presets.length - n, hpos⟩) none true, ?_, ?_, ?_⟩
    · exact getElem?_set_self_of_lt _ _ _ (by simpa using hpos)
    · rw [preset_store_default_clear]
    · rw [preset_store_default_clear]
  · push_neg at hle
    have hmax : max b.presets.length n = n := Nat.max_eq_right (Nat.le_of_lt hle)
    have hnle : ¬ (n ≤ b.presets.length) := by omega
    set ext := b.presets ++ (List.range (n - b.presets.length)).map
      (fun k => mkPreset (b.presets.length + k)) with hext
    have hlen : ext.length = n := by
      simp [hext]
      omega
    have hpos : ext.length - n < ext.length := by omega
    have hget : ext.get? (ext.length - n) = some (ext.get ⟨ext.length - n, hpos⟩) :=
      List.get?_eq_get hpos
    simp only [store_preset, h0, if_false, habs, if_neg hnle, ← hext, hget, hmax]
    refine ⟨by simpa using hlen, ?_⟩
    refine ⟨preset_store b (ext.get ⟨ext.length - n, hpos⟩) none true, ?_, ?_, ?_⟩
    · have hidx : n - n = ext.length - n := by omega
      rw [hidx]
      exact getElem?_set_self_of_lt _ _ _ (by simpa using hpos)
    · rw [preset_store_default_clear]
    · rw [preset_store_default_clear]

/-- C3 witness: storing at index `-2` on a one-preset backend grows the
collection to two presets. -/
theorem C3_negative_index_store_witness :
    (store_preset demoBackend2 (-((2 : Nat) : Int)) none none true).presets.length = 2 := by
  have h := (C3_negative_index_store demoBackend2 2 (by decide)).1
  simpa using h

/-! ## C4: container-length invariant -/

/-- C4 counterexample: from a pristine backend, set `num_outputs = 2` then
`num_inputs = 3`; between operations `len(crosspoints) = 3 ≠ num_outputs = 2`
(the `on_num_inputs` handler resized `crosspoints` to `num_inputs`). -/
theorem C4_counterexample :
    (set_num_inputs (set_num_outputs initBackend 2).1 3).1.num_outputs = 2
    ∧ (set_num_inputs (set_num_outputs initBackend 2).1 3).1.crosspoints.length = 3 := by
  constructor <;> rfl

/-- C4 (amended): under the steady invariant, setting `num_outputs` restores
all output-side lengths to the new value and leaves the input side alone; but
setting `num_inputs` also forces `crosspoints`/`crosspoint_control` to length
`num_inputs` whenever it actually changes, so the crosspoints length tracks
whichever dimension was assigned (with a change) most recently and can differ
from `num_outputs` between operations. -/
theorem C4_container_lengths (b : Backend) (N M : Nat)
    (ho : b.output_labels.length = b.num_outputs)
    (hoc : b.output_label_control.length = b.num_outputs)
    (hx : b.crosspoints.length = b.num_outputs)
    (hxc : b.crosspoint_control.length = b.num_outputs)
    (hi : b.input_labels.length = b.num_inputs)
    (hic : b.input_label_control.length = b.num_inputs) :
    ((set_num_outputs b N).1.num_outputs = N
      ∧ (set_num_outputs b N).1.output_labels.length = N
      ∧ (set_num_outputs b N).1.output_label_control.length = N
      ∧ (set_num_outputs b N).1.crosspoints.length = N
      ∧ (set_num_outputs b N).1.crosspoint_control.length = N
      ∧ (set_num_outputs b N).1.input_labels.length = b.num_inputs
      ∧ (set_num_outputs b N).1.input_label_control.length = b.num_inputs)
    ∧ ((set_num_inputs b M).1.num_inputs = M
      ∧ (set_num_inputs b M).1.input_labels.length = M
      ∧ (set_num_inputs b M).1.input_label_control.length = M
      ∧ (set_num_inputs b M).1.output_labels.length = b.num_outputs
      ∧ (set_num_inputs b M).1.output_label_control.length = b.num_outputs
      ∧ (set_num_inputs b M).1.crosspoints.length =
          (if M = b.num_inputs then b.num_outputs else M)
      ∧ (set_num_inputs b M).1.crosspoint_control.length =
          (if M = b.num_inputs then b.num_outputs else M)) := by
  constructor
  · by_cases hN : N = b.num_outputs
    · subst hN
      simp [set_num_outputs, ho, hoc, hx, hxc, hi, hic]
    · have hNo : ¬ (N = b.output_labels.length) := by rw [ho]; exact hN
      have hNx : N ≠ b.crosspoints.length := by rw [hx]; exact hN
      simp [set_num_outputs, hN, on_num_outputs, hNo, hNx, assign_crosspoints,
        assign_output_labels, hi, hic]
  · by_cases hM : M = b.num_inputs
    · subst hM
      simp [set_num_inputs, ho, hoc, hx, hxc, hi, hic]
    · have hMi : ¬ (M = b.input_labels.length) := by rw [hi]; exact hM
      by_cases hMx : M = b.crosspoints.length
      · have hnx : (M ≠ b.crosspoints.length) = False := by simp [hMx]
        simp [set_num_inputs, hM, on_num_inputs, hMi, hnx, assign_input_labels,
          ho, hoc, hMx.symm]
        omega
      · simp [set_num_inputs, hM, on_num_inputs, hMi, hMx, assign_crosspoints,
          assign_input_labels, ho, hoc, hM]

/-- C4 witness at a pristine backend. -/
theorem C4_container_lengths_witness :
    (set_num_outputs initBackend 2).1.output_labels.length = 2
    ∧ (set_num_inputs initBackend 3).1.crosspoints.length = 3 := by
  have h := C4_container_lengths initBackend 2 3 rfl rfl rfl rfl rfl rfl
  refine ⟨h.1.2.1, ?_⟩
  simpa using h.2.2.2.2.2.2.1

/-! ## C5: num_outputs resize semantics -/

/-- C5 counterexample: (a) when the assignment does not change `num_outputs`
no event fires, so after the reachable sequence outputs=2, inputs=3, the
assignment `num_outputs = 2` (with `len(crosspoints) = 3 ≠ 2`) leaves
`crosspoints` at length 3, not 2; (b) the resize from a pristine backend
delivers its bulk `crosspoints` notification while `len(output_labels)` is
still the old length — observers do see a length mismatch. -/
theorem C5_counterexample :
    ((2 : Nat) ≠ (set_num_inputs (set_num_outputs initBackend 2).1 3).1.crosspoints.length
      ∧ (set_num_outputs (set_num_inputs (set_num_outputs initBackend 2).1 3).1 2).1.crosspoints.length = 3)
    ∧ ((set_num_outputs initBackend 2).2.head? = some (Evt.note "crosspoints" none 2 0 0)
      ∧ (2 : Nat) ≠ 0) := by
  refine ⟨⟨by decide, rfl⟩, rfl, by decide⟩

/-- C5 (amended): provided `num_outputs` actually changes and the steady
length invariant holds beforehand, setting it to N zero-fills `crosspoints`
and empty-fills `output_labels` at length N; the resize is two successive bulk
assignments, and the `crosspoints`/`crosspoint_control` notifications are
delivered while `output_labels` still has its old length (the later
`output_labels` notifications see both lengths equal to N). -/
theorem C5_resize_semantics (b : Backend) (N : Nat)
    (hx : b.crosspoints.length = b.num_outputs)
    (ho : b.output_labels.length = b.num_outputs)
    (hN : N ≠ b.num_outputs) :
    (set_num_outputs b N).1.crosspoints = List.replicate N 0
    ∧ (set_num_outputs b N).1.output_labels = List.replicate N ""
    ∧ (set_num_outputs b N).2 =
        [Evt.note "crosspoints" none N b.output_labels.length b.input_labels.length,
         Evt.note "crosspoint_control" none N b.output_labels.length b.input_labels.length,
         Evt.note "output_labels" none N N b.input_labels.length,
         Evt.note "output_label_control" none N N b.input_labels.length] := by
  have hNo : ¬ (N = b.output_labels.length) := by rw [ho]; exact hN
  have hNx : N ≠ b.crosspoints.length := by rw [hx]; exact hN
  simp [set_num_outputs, hN, on_num_outputs, hNo, hNx, assign_crosspoints,
    assign_output_labels, mkNote]

/-- C5 witness at a pristine backend resized to 2 outputs. -/
theorem C5_resize_semantics_witness :
    (set_num_outputs initBackend 2).1.crosspoints = List.replicate 2 0
    ∧ (set_num_outputs initBackend 2).2.head? = some (Evt.note "crosspoints" none 2 0 0) := by
  have h := C5_resize_semantics initBackend 2 rfl rfl (by decide)
  exact ⟨h.1, by rw [h.2.2]; rfl⟩

/-! ## C7: ACK/NAK rendezvous result -/

/-- C7: for every Vidhub outbound command (the three batched `set_*` calls and
their single-item delegating variants), the boolean result is true iff the
line captured by the rendezvous exists, does not start with NAK, and is
non-empty; a NAK is surfaced as `false`, never as an exception (the embedded
call functions are total). -/
theorem C7_command_result (args : List (Nat × Int)) (la li : List (Nat × String))
    (o j : Nat) (v : Int) (s1 s2 : String) (resp : Option String)
    (hcap : ∀ s, resp = some s → pyStartswith s "ACK" = true ∨ pyStartswith s "NAK" = true) :
    ((set_crosspoints_call args resp).2 = true ↔
        ∃ s, resp = some s ∧ pyStartswith s "NAK" = false ∧ s ≠ "")
    ∧ ((set_output_labels_call la resp).2 = true ↔
        ∃ s, resp = some s ∧ pyStartswith s "NAK" = false ∧ s ≠ "")
    ∧ ((set_input_labels_call li resp).2 = true ↔
        ∃ s, resp = some s ∧ pyStartswith s "NAK" = false ∧ s ≠ "")
    ∧ set_crosspoint_call o v resp = set_crosspoints_call [(o, v)] resp
    ∧ set_output_label_call o s1 resp = set_output_labels_call [(o, s1)] resp
    ∧ set_input_label_call j s2 resp = set_input_labels_call [(j, s2)] resp := by
  have key : cmd_result resp = true ↔
      ∃ s, resp = some s ∧ pyStartswith s "NAK" = false ∧ s ≠ "" := by
    cases resp with
    | none => simp [cmd_result]
    | some s =>
      have hs := hcap s rfl
      have hne : s ≠ "" := by
        intro he
        subst he
        rcases hs with h | h
        · exact absurd h (by decide)
        · exact absurd h (by decide)
      by_cases hnak : pyStartswith s "NAK" = true
      · simp [cmd_result, hnak]
      · simp only [Bool.not_eq_true] at hnak
        simp [cmd_result, hnak, hne]
  exact ⟨key, key, key, rfl, rfl, rfl⟩

/-- C7 witness: a captured "ACK" yields `true`, a captured "NAK" yields the
boolean `false` result. -/
theorem C7_command_result_witness :
    (set_crosspoints_call [(0, 1)] (some "ACK")).2 = true
    ∧ (set_crosspoints_call [(0, 1)] (some "NAK")).2 = false := by
  constructor
  · exact (C7_command_result [(0, 1)] [] [] 0 0 0 "" "" (some "ACK")
      (by intro s hs; injection hs with h; subst h; left; decide)).1.mpr
      ⟨"ACK", rfl, by decide, by decide⟩
  · have h := (C7_command_result [(0, 1)] [] [] 0 0 0 "" "" (some "NAK")
      (by intro s hs; injection hs with h; subst h; right; decide)).1
    by_contra hb
    rcases h.mp (by simpa using hb) with ⟨s, hs, hnak, _⟩
    injection hs with h2
    subst h2
    exact absurd hnak (by decide)

/-! ## C8: store/recall round trip -/

theorem set_append_right {α : Type} (l1 l2 : List α) (a : α) (k : Nat) :
    (l1 ++ l2).set (l1.length + k) a = l1 ++ l2.set k a := by
  induction l1 with
  | nil => simp
  | cons x xs ih =>
    have h1 : (x :: xs).length + k = (xs.length + k) + 1 := by
      simp only [List.length_cons]
      omega
    calc (x :: xs ++ l2).set ((x :: xs).length + k) a
        = x :: ((xs ++ l2).set (xs.length + k) a) := by rw [h1]; rfl
      _ = x :: (xs ++ l2.set k a) := by rw [ih]
      _ = (x :: xs) ++ l2.set k a := rfl

theorem applyPairs_append (xs : List Int) (l1 l2 : List (Nat × Int)) :
    applyPairs xs (l1 ++ l2) = applyPairs (applyPairs xs l1) l2 := by
  simp [applyPairs, List.foldl_append]

theorem applyPairs_snapshot_take_drop (v xs : List Int) (hx : xs.length = v.length) :
    ∀ m : Nat, m ≤ v.length →
      applyPairs xs ((List.range m).map (fun o => (o, v.getD o 0))) =
        v.take m ++ xs.drop m := by
  intro m
  induction m with
  | zero => simp [applyPairs]
  | succ k ih =>
    intro hm
    have hklt : k < v.length := hm
    have hk : k ≤ v.length := Nat.le_of_lt hklt
    rw [List.range_succ, List.map_append, applyPairs_append, ih hk]
    simp only [List.map_cons, List.map_nil]
    show (v.take k ++ xs.drop k).set k (v.getD k 0) = v.take (k + 1) ++ xs.drop (k + 1)
    have hlen : (v.take k).length = k := by
      simp [List.length_take]
      omega
    have hset := set_append_right (v.take k) (xs.drop k) (v.getD k 0) 0
    rw [hlen] at hset
    simp only [Nat.add_zero] at hset
    rw [hset]
    have hkx : k < xs.length := by omega
    rw [List.drop_eq_getElem_cons hkx]
    show v.take k ++ (v.getD k 0 :: xs.drop (k + 1)) = v.take (k + 1) ++ xs.drop (k + 1)
    have hv : v.getD k 0 = v[k] := by
      simp [List.getD, List.getElem?_eq_getElem hklt]
    rw [hv, ← List.take_concat_get' v k hklt, List.append_assoc, List.singleton_append]

theorem applyPairs_snapshot (v xs : List Int) (hx : xs.length = v.length) :
    applyPairs xs ((List.range v.length).map (fun o => (o, v.getD o 0))) = v := by
  rw [applyPairs_snapshot_take_drop v xs hx v.length (Nat.le_refl _)]
  simp [hx]

/-- A concrete backend with a non-trivial routing state. -/
def routedBackend : Backend := { initBackend with num_outputs := 2, crosspoints := [5, 7] }

/-- C8: `store()` with default (full) coverage snapshots the live crosspoints;
`recall()` then issues one batched set-crosspoints command whose pairs, applied
as routing assignments, reproduce the backend's crosspoints exactly as they
were at store time — whatever state the device has drifted to, so in
particular with no intervening change. -/
theorem C8_store_recall_round_trip (b : Backend) (p : Preset)
    (h : b.num_outputs = b.crosspoints.length) :
    (preset_store b p none true).crosspoints = storeSnapshot b
    ∧ (0 < b.num_outputs →
        preset_recall_tx (preset_store b p none true) =
          some (set_crosspoints_tx (storeSnapshot b)))
    ∧ ∀ xs : List Int, xs.length = b.crosspoints.length →
        applyPairs xs (preset_store b p none true).crosspoints = b.crosspoints := by
  refine ⟨?_, ?_, ?_⟩
  · rw [preset_store_default_clear]
  · intro hpos
    rw [preset_store_default_clear]
    have hne : ¬ ((storeSnapshot b).length = 0) := by
      simp [storeSnapshot]
      omega
    simp [preset_recall_tx, hne]
  · intro xs hxs
    rw [preset_store_default_clear]
    show applyPairs xs (storeSnapshot b) = b.crosspoints
    unfold storeSnapshot
    rw [h]
    exact applyPairs_snapshot b.crosspoints xs hxs

/-- C8 witness: on a drifted state `[9, 9]`, recalling the snapshot of
`[5, 7]` restores `[5, 7]`. -/
theorem C8_store_recall_round_trip_witness :
    applyPairs [9, 9] (preset_store routedBackend (mkPreset 0) none true).crosspoints =
      routedBackend.crosspoints :=
  (C8_store_recall_round_trip routedBackend (mkPreset 0) rfl).2.2 [9, 9] rfl

/-! ## C6: parsing a routing batch with an acknowledgment -/

theorem vidhub_line_ack (acc : VAcc) (hs : acc.stopped = false) :
    vidhub_line acc "ACK" = { acc with b := { acc.b with ack_or_nak := some "ACK" } } := by
  simp [vidhub_line, hs,
    (show strContains "ACK" "END PRELUDE" = false by decide),
    (show ("ACK" : String).data.isEmpty = false by decide),
    (show pyStartswith "ACK" "ACK" = true by decide)]

theorem vidhub_line_blank (acc : VAcc) (hs : acc.stopped = false) :
    vidhub_line acc "" = acc := by
  simp [vidhub_line, hs,
    (show strContains "" "END PRELUDE" = false by decide),
    (show ("" : String).data.isEmpty = true by decide)]

theorem vidhub_line_routing_header (acc : VAcc) (hs : acc.stopped = false) :
    vidhub_line acc "VIDEO OUTPUT ROUTING:" =
      { acc with b := { acc.b with current_section := some "VIDEO OUTPUT ROUTING" } } := by
  simp [vidhub_line, hs,
    (show strContains "VIDEO OUTPUT ROUTING:" "END PRELUDE" = false by decide),
    (show ("VIDEO OUTPUT ROUTING:" : String).data.isEmpty = false by decide),
    (show pyStartswith "VIDEO OUTPUT ROUTING:" "ACK" = false by decide),
    (show pyStartswith "VIDEO OUTPUT ROUTING:" "NAK" = false by decide),
    (show ("VIDEO OUTPUT ROUTING:" : String) ∈ VIDHUB_SECTION_NAMES by decide),
    (show rstripColon "VIDEO OUTPUT ROUTING:" = "VIDEO OUTPUT ROUTING" by decide)]

theorem vidhub_line_pair_zero_three (acc : VAcc) (hs : acc.stopped = false)
    (hsec : acc.b.current_section = some "VIDEO OUTPUT ROUTING") :
    vidhub_line acc "0 3" = { acc with b := (setitem_crosspoints acc.b 0 3).1 } := by
  simp [vidhub_line, hs, hsec,
    (show strContains "0 3" "END PRELUDE" = false by decide),
    (show ("0 3" : String).data.isEmpty = false by decide),
    (show pyStartswith "0 3" "ACK" = false by decide),
    (show pyStartswith "0 3" "NAK" = false by decide),
    (show ¬ (("0 3" : String) ∈ VIDHUB_SECTION_NAMES) by decide),
    (show (pySplit "0 3" ' ').map pyToIntOpt = [some (0 : Int), some 3] by decide)]

theorem vidhub_line_pair_one_two (acc : VAcc) (hs : acc.stopped = false)
    (hsec : acc.b.current_section = some "VIDEO OUTPUT ROUTING") :
    vidhub_line acc "1 2" = { acc with b := (setitem_crosspoints acc.b 1 2).1 } := by
  simp [vidhub_line, hs, hsec,
    (show strContains "1 2" "END PRELUDE" = false by decide),
    (show ("1 2" : String).data.isEmpty = false by decide),
    (show pyStartswith "1 2" "ACK" = false by decide),
    (show pyStartswith "1 2" "NAK" = false by decide),
    (show ¬ (("1 2" : String) ∈ VIDHUB_SECTION_NAMES) by decide),
    (show (pySplit "1 2" ' ').map pyToIntOpt = [some (1 : Int), some 2] by decide)]

/-- C6: on a connected Vidhub backend with the prelude parsed and at least two
crosspoints, parsing the batch `"ACK\n\nVIDEO OUTPUT ROUTING:\n0 3\n1 2\n\n"`
sets `crosspoints[0] = 3` and `crosspoints[1] = 2`, captures the line `"ACK"`,
and a caller blocked in the normal-mode response wait receives `"ACK"`. -/
theorem C6_parse_routing_batch (b : Backend)
    (_hc : b.connected = true) (hp : b.prelude_parsed = true)
    (hlen : 2 ≤ b.crosspoints.length) :
    (vidhub_parse b "ACK\n\nVIDEO OUTPUT ROUTING:\n0 3\n1 2\n\n").crosspoints.getD 0 0 = 3
    ∧ (vidhub_parse b "ACK\n\nVIDEO OUTPUT ROUTING:\n0 3\n1 2\n\n").crosspoints.getD 1 0 = 2
    ∧ (vidhub_parse b "ACK\n\nVIDEO OUTPUT ROUTING:\n0 3\n1 2\n\n").ack_or_nak = some "ACK"
    ∧ wait_for_response true
        (vidhub_parse b "ACK\n\nVIDEO OUTPUT ROUTING:\n0 3\n1 2\n\n").ack_or_nak = some "ACK" := by
  have hsplit : pySplitlines "ACK\n\nVIDEO OUTPUT ROUTING:\n0 3\n1 2\n\n" =
      ["ACK", "", "VIDEO OUTPUT ROUTING:", "0 3", "1 2", ""] := by decide
  have hparse : vidhub_parse b "ACK\n\nVIDEO OUTPUT ROUTING:\n0 3\n1 2\n\n" =
      (setitem_crosspoints
        (setitem_crosspoints
          { b with ack_or_nak := some "ACK", current_section := some "VIDEO OUTPUT ROUTING" }
          0 3).1 1 2).1 := by
    unfold vidhub_parse
    rw [hsplit]
    unfold vidhub_parse_lines
    simp only [List.foldl_cons, List.foldl_nil]
    rw [vidhub_line_ack _ rfl, vidhub_line_blank _ rfl, vidhub_line_routing_header _ rfl,
      vidhub_line_pair_zero_three _ rfl rfl, vidhub_line_pair_one_two _ rfl rfl,
      vidhub_line_blank _ rfl]
    simp [setitem_crosspoints, hp]
  rcases hxs : b.crosspoints with _ | ⟨x, xt⟩
  · rw [hxs] at hlen
    simp at hlen
  rcases hxt : xt with _ | ⟨y, t⟩
  · rw [hxs, hxt] at hlen
    simp at hlen
  rw [hparse]
  simp [setitem_crosspoints, wait_for_response, hxs, hxt, List.set]

/-- C6 witness at a concrete ready backend. -/
theorem C6_parse_routing_batch_witness :
    (vidhub_parse demoBackend2 "ACK\n\nVIDEO OUTPUT ROUTING:\n0 3\n1 2\n\n").crosspoints.getD 0 0 = 3
    ∧ (vidhub_parse demoBackend2 "ACK\n\nVIDEO OUTPUT ROUTING:\n0 3\n1 2\n\n").ack_or_nak = some "ACK" := by
  have h := C6_parse_routing_batch demoBackend2 rfl rfl (by decide)
  exact ⟨h.1, h.2.2.1⟩

/-! ## C9: SmartScope hostname to device_id -/

/-- A SmartScope state sitting in the device-identity handshake section. -/
def demoScope : SmartScope := { initSmartScope with current_section := some "SMARTVIEW DEVICE" }

/-- C9 counterexample: for `Hostname: foo-bar-baz` the parser sets `device_id`
to `"BAR"` — the field between the first and second hyphens — not to
`"BAR-BAZ"`, the entire portion after the first hyphen as the claim states. -/
theorem C9_counterexample :
    ((smartscope_parse demoScope "Hostname: foo-bar-baz\n").toOption.map
      (fun s => s.device_id)) = some (some "BAR")
    ∧ some "BAR" ≠ some "BAR-BAZ" := by
  constructor
  · rfl
  · decide

/-- C9 (amended): a `Hostname: <value>` handshake line sets `device_id` to the
second '-'-separated field of the value (the portion between the first and
second hyphens when the value has two or more hyphens; the whole remainder
only when it has exactly one), upper-cased. -/
theorem C9_hostname_device_id (a : SAcc) (line : String)
    (hs : a.stopped = false)
    (hsec : a.s.current_section = some "SMARTVIEW DEVICE")
    (hne : line.data.isEmpty = false)
    (hack : pyStartswith line "ACK" = false)
    (hnak : pyStartswith line "NAK" = false)
    (hmem : line ∉ a.s.section_names)
    (hmodel : pyStartswith line "Model:" = false)
    (hhost : pyStartswith line "Hostname:" = true)
    (hparts : 2 ≤ (pySplit (split_value line) '-').length) :
    smartscope_line a line =
      .ok { a with s := { a.s with
        device_id := some (pyUpper ((pySplit (split_value line) '-').getD 1 "")) } }
    ∧ hostname_to_device_id "Smart-Scope-01" = "SCOPE"
    ∧ hostname_to_device_id "one-two" = "TWO" := by
  refine ⟨?_, by decide, by decide⟩
  have hlt : ¬ ((pySplit (split_value line) '-').length < 2) := by omega
  simp [smartscope_line, hs, hsec, hne, hack, hnak, hmem, hmodel, hhost, hlt,
    (show ¬ (("SMARTVIEW DEVICE" : String) = "PROTOCOL PREAMBLE") by decide)]

/-- C9 witness on the concrete line `Hostname: foo-bar-baz`. -/
theorem C9_hostname_device_id_witness :
    smartscope_line { s := demoScope, section_parsed := false, stopped := false }
      "Hostname: foo-bar-baz" =
      .ok { s := { demoScope with device_id := some "BAR" },
            section_parsed := false, stopped := false } := by
  have h := (C9_hostname_device_id ⟨demoScope, false, false⟩ "Hostname: foo-bar-baz"
    rfl rfl (by decide) (by decide) (by decide) (by decide) (by decide) (by decide)
    (by decide)).1
  rw [h]
  rfl

/-! ## C10: SmartScope parser is not total -/

/-- C10: for every SmartScope backend whose section cursor is unset, a received
batch whose first line is blank makes `parse_rx_bfr` fail (the attribute access
`self.current_section.startswith('MONITOR')` on the absent cursor) instead of
skipping the blank line — the parser is not total over byte batches. -/
theorem C10_blank_line_without_cursor (sc : SmartScope) (rest : List String)
    (h : sc.current_section = none) :
    smartscope_parse_lines sc ("" :: rest) = .error "AttributeError"
    ∧ smartscope_parse sc "\n" = .error "AttributeError" := by
  have hstep : smartscope_line { s := sc, section_parsed := false, stopped := false } "" =
      .error "AttributeError" := by
    simp [smartscope_line, h, (by decide : ("" : String).data.isEmpty = true)]
  have h1 : smartscope_parse_lines sc ("" :: rest) = .error "AttributeError" := by
    simp [smartscope_parse_lines, List.foldl, smartscope_step, hstep,
      foldl_smartscope_step_error]
  refine ⟨h1, ?_⟩
  have hsp : pySplitlines "\n" = [""] := by decide
  simpa [smartscope_parse, hsp] using
    (by simp [smartscope_parse_lines, List.foldl, smartscope_step, hstep] :
      smartscope_parse_lines sc [""] = .error "AttributeError")

/-- C10 witness at a freshly connected SmartScope backend. -/
theorem C10_blank_line_without_cursor_witness :
    smartscope_parse initSmartScope "\n" = .error "AttributeError" :=
  (C10_blank_line_without_cursor initSmartScope [] rfl).2

end VidhubControl
